import Mathlib

/-!
# WindsorLogistics — verification of the reservation / tracking core

Shallow embedding of the WindsorLogistics backend (Python/FastAPI + MongoDB)
and proofs about it.  Each section names the source file it embeds.

Conventions used throughout:
* Mongo collections are embedded as Lean lists of documents (structures);
  `find_one` is `List.find?`, `update_one` / `find_one_and_update` update the
  first matching document, which is what MongoDB does for a filter, and the
  whole store round-trip of one endpoint is modelled as one atomic step, which
  is exactly the atomicity MongoDB grants a single `find_one_and_update`.
* Timestamps are integers (milliseconds), as in the `app/` routers.
* Python's `int(x / 60000)` on an integer `x` truncates the quotient toward
  zero; it is embedded as `Int.tdiv x 60000` (faithful for every millisecond
  magnitude a timestamp difference can take, since the float quotient is
  nearer to the exact quotient than the exact quotient is to the next
  integer in truncation direction).
* Python truthiness tests (`if not planned_eta_ms`, `loc.ts or now_ms`) are
  embedded by matching on the `Option` and additionally testing for the
  falsy value `0`.
-/

namespace Windsor

/-! ## Delay classifier — `src/backend/app/routers/tracking.py`, `compute_delay` -/

/-- The `delay_color` strings `"green"`, `"yellow"`, `"red"` of the tracker. -/
inductive DelayColor where
  | green
  | yellow
  | red
deriving DecidableEq, Repr

/-- Embedding of `compute_delay(planned_eta_ms, now_ms)`
(`src/backend/app/routers/tracking.py`, lines 12–23):

```python
def compute_delay(planned_eta_ms, now_ms):
    if not planned_eta_ms:
        return None, None
    delay_min = int((now_ms - planned_eta_ms) / 60000)
    if delay_min <= 5:
        return delay_min, "green"
    if delay_min <= 20:
        return delay_min, "yellow"
    return delay_min, "red"
```

`if not planned_eta_ms` is a truthiness test: it takes the early return both
when `planned_eta_ms` is `None` and when it is `0`.  `int(... / 60000)`
truncates toward zero, hence `Int.tdiv`. -/
def compute_delay (planned_eta_ms : Option Int) (now_ms : Int) :
    Option Int × Option DelayColor :=
  match planned_eta_ms with
  | none => (none, none)
  | some p =>
    if p = 0 then (none, none)
    else
      let delay_min : Int := Int.tdiv (now_ms - p) 60000
      if delay_min ≤ 5 then (some delay_min, some .green)
      else if delay_min ≤ 20 then (some delay_min, some .yellow)
      else (some delay_min, some .red)

theorem compute_delay_none (now_ms : Int) : compute_delay none now_ms = (none, none) := rfl

theorem compute_delay_some (p now_ms : Int) (hp : p ≠ 0) :
    compute_delay (some p) now_ms =
      (let d := Int.tdiv (now_ms - p) 60000;
       if d ≤ 5 then (some d, some .green)
       else if d ≤ 20 then (some d, some .yellow)
       else (some d, some .red)) := by
  simp [compute_delay, hp]

/-- The minutes value reported for a present, nonzero `planned_eta_ms` is the
truncated-toward-zero quotient. -/
theorem compute_delay_minutes (p now_ms : Int) (hp : p ≠ 0) :
    (compute_delay (some p) now_ms).1 = some (Int.tdiv (now_ms - p) 60000) := by
  rw [compute_delay_some p now_ms hp]
  by_cases h5 : Int.tdiv (now_ms - p) 60000 ≤ 5
  · simp [h5]
  · by_cases h20 : Int.tdiv (now_ms - p) 60000 ≤ 20 <;> simp [h5, h20]

/-- C3, as stated, is false: the code truncates toward zero where the claim
demands `floor`.  At `planned_eta = 90000 ms` and `observed_at = 0 ms`
(an observation 90 seconds before the planned ETA) the code reports
`delay_minutes = -1`, while `floor((0 - 90000) / 60000) = -2`. -/
theorem C3_floor_counterexample :
    (compute_delay (some 90000) 0).1 = some (-1)
      ∧ Int.fdiv (0 - 90000) 60000 = -2
      ∧ (compute_delay (some 90000) 0).1 ≠ some (Int.fdiv (0 - 90000) 60000) := by
  refine ⟨by decide, by decide, by decide⟩

/-- C3 (amended): for every present **nonzero** `planned_eta` and every
`observed_at`, the classifier returns
`delay_minutes = trunc((observed_at − planned_eta) / 60s)` — the quotient
truncated toward zero (Python `int()`), not floored — with negative values
(early/on-time) preserved and not clamped; e.g. an observation 90 seconds
before the planned ETA yields `delay_minutes = -1`. -/
theorem C3_delay_truncated (p now_ms : Int) (hp : p ≠ 0) :
    (compute_delay (some p) now_ms).1 = some (Int.tdiv (now_ms - p) 60000)
      ∧ (compute_delay (some 90000) 0).1 = some (-1) :=
  ⟨compute_delay_minutes p now_ms hp, by decide⟩

theorem C3_delay_truncated_witness :
    (compute_delay (some 90000) 0).1 = some (Int.tdiv (0 - 90000) 60000)
      ∧ (compute_delay (some 90000) 0).1 = some (-1) :=
  C3_delay_truncated 90000 0 (by decide)

/-- C4, as stated, is false: `planned_eta_ms = 0` is a *present* planned ETA,
so by the claim the output should be a bucket colour (here the delay would be
30 minutes, i.e. `red`), but the code's truthiness test classifies `0` like an
absent ETA and returns `(null, null)`. -/
theorem C4_zero_eta_counterexample :
    compute_delay (some 0) 1800000 = (none, none)
      ∧ (compute_delay (some 0) 1800000).2 ≠ some .red := by
  refine ⟨by decide, by decide⟩

/-- C4 (amended): if `planned_eta` is absent **or zero** the result is
`(delay_minutes = null, color = null)`; otherwise the colour is `green` when
`delay_minutes ≤ 5`, `yellow` when `5 < delay_minutes ≤ 20` and `red` when
`delay_minutes > 20` — in particular inputs yielding exactly 5, 6, 20 and 21
minutes late produce green, yellow, yellow, red respectively. -/
theorem C4_color_buckets (p now_ms : Int) (hp : p ≠ 0) :
    (compute_delay none now_ms = (none, none)
      ∧ compute_delay (some 0) now_ms = (none, none))
    ∧ (let d := Int.tdiv (now_ms - p) 60000;
       (compute_delay (some p) now_ms).2 =
         some (if d ≤ 5 then .green else if d ≤ 20 then .yellow else .red))
    ∧ (compute_delay (some 60000) (60000 + 5 * 60000) = (some 5, some .green)
      ∧ compute_delay (some 60000) (60000 + 6 * 60000) = (some 6, some .yellow)
      ∧ compute_delay (some 60000) (60000 + 20 * 60000) = (some 20, some .yellow)
      ∧ compute_delay (some 60000) (60000 + 21 * 60000) = (some 21, some .red)) := by
  refine ⟨⟨rfl, rfl⟩, ?_, by decide, by decide, by decide, by decide⟩
  rw [compute_delay_some p now_ms hp]
  by_cases h5 : Int.tdiv (now_ms - p) 60000 ≤ 5
  · simp [h5]
  · by_cases h20 : Int.tdiv (now_ms - p) 60000 ≤ 20 <;> simp [h5, h20]

theorem C4_color_buckets_witness :
    (compute_delay none 0 = (none, none) ∧ compute_delay (some 0) 0 = (none, none))
    ∧ (compute_delay (some 60000) (60000 + 5 * 60000) = (some 5, some .green)
      ∧ compute_delay (some 60000) (60000 + 6 * 60000) = (some 6, some .yellow)
      ∧ compute_delay (some 60000) (60000 + 20 * 60000) = (some 20, some .yellow)
      ∧ compute_delay (some 60000) (60000 + 21 * 60000) = (some 21, some .red)) := by
  have h := C4_color_buckets 60000 0 (by decide)
  exact ⟨h.1, h.2.2⟩

/-- C10: the classifier's absence test is Python falsiness, so the epoch
instant `planned_eta_ms = 0` — a representable planned ETA — is classified
exactly like an absent schedule: `(null, null)` for every `observed_at`. -/
theorem C10_zero_eta_is_absent (now_ms : Int) :
    compute_delay (some 0) now_ms = (none, none)
      ∧ compute_delay (some 0) now_ms = compute_delay none now_ms :=
  ⟨rfl, rfl⟩

/-! ## Truck reservation — `src/backend/main.py`, `create_booking`

The reservation is the single MongoDB call

```python
truck = await db.trucks.find_one_and_update(
    {"truck_id": payload.truck_id, "status": "available"},
    {"$set": {"status": "booked", "updated_at": now}},
    projection={"_id": 0},
    return_document=ReturnDocument.AFTER,
)
if not truck:
    raise HTTPException(status_code=400, detail="Truck not available")
```

`find_one_and_update` atomically picks the first document matching the filter,
applies the update to it, and returns the post-update document, or returns
nothing (leaving the collection untouched) when no document matches. -/

/-- A document of the `trucks` collection (`main.py` `TruckOut`). -/
structure Truck where
  truck_id : String
  owner_id : String
  ttype : String
  status : String
  created_at : Int
  updated_at : Int
deriving DecidableEq, Repr

/-- Embedding of the reservation step of `create_booking`
(`main.py` lines 238–245): the atomic
`find_one_and_update({"truck_id": tid, "status": "available"},
{"$set": {"status": "booked", "updated_at": now}}, AFTER)`.
Returns the post-update document (or `none`) together with the
post-call collection. -/
def reserveTruck (store : List Truck) (tid : String) (now : Int) :
    Option Truck × List Truck :=
  match store with
  | [] => (none, [])
  | t :: rest =>
    if t.truck_id = tid ∧ t.status = "available" then
      let updated : Truck := { t with status := "booked", updated_at := now }
      (some updated, updated :: rest)
    else
      ((reserveTruck rest tid now).1, t :: (reserveTruck rest tid now).2)

theorem reserveTruck_none_iff (store : List Truck) (tid : String) (now : Int) :
    (reserveTruck store tid now).1 = none ↔
      ∀ t ∈ store, ¬(t.truck_id = tid ∧ t.status = "available") := by
  induction store with
  | nil => simp [reserveTruck]
  | cons t rest ih =>
    by_cases h : t.truck_id = tid ∧ t.status = "available"
    · simp [reserveTruck, h]
    · simp only [reserveTruck, if_neg h]
      rw [ih]
      constructor
      · intro hall x hx
        rcases List.mem_cons.mp hx with rfl | hx
        · exact h
        · exact hall x hx
      · intro hall x hx
        exact hall x (List.mem_cons_of_mem t hx)

theorem reserveTruck_fail_frame (store : List Truck) (tid : String) (now : Int)
    (h : (reserveTruck store tid now).1 = none) :
    (reserveTruck store tid now).2 = store := by
  induction store with
  | nil => simp [reserveTruck]
  | cons t rest ih =>
    by_cases hc : t.truck_id = tid ∧ t.status = "available"
    · simp [reserveTruck, hc] at h
    · simp only [reserveTruck, if_neg hc] at h ⊢
      rw [ih h]

/-- A successful reservation splits the collection around the first matching
document: everything before it does not match, the matched document was
`available` with the requested id, and the post-call collection replaces it
in place by the booked record that is also returned. -/
theorem reserveTruck_some_shape (store : List Truck) (tid : String) (now : Int)
    (u : Truck) (h : (reserveTruck store tid now).1 = some u) :
    ∃ l₁ t l₂, store = l₁ ++ t :: l₂
      ∧ (∀ t' ∈ l₁, ¬(t'.truck_id = tid ∧ t'.status = "available"))
      ∧ t.truck_id = tid ∧ t.status = "available"
      ∧ u = { t with status := "booked", updated_at := now }
      ∧ (reserveTruck store tid now).2 = l₁ ++ u :: l₂ := by
  induction store with
  | nil => simp [reserveTruck] at h
  | cons t rest ih =>
    by_cases hc : t.truck_id = tid ∧ t.status = "available"
    · have hu : { t with status := "booked", updated_at := now } = u := by
        simpa [reserveTruck, if_pos hc] using h
      refine ⟨[], t, rest, rfl, by simp, hc.1, hc.2, hu.symm, ?_⟩
      simp only [reserveTruck, if_pos hc, List.nil_append]
      rw [hu]
    · simp only [reserveTruck, if_neg hc] at h
      obtain ⟨l₁, t', l₂, hsplit, hpre, hid, hav, hu, hpost⟩ := ih h
      refine ⟨t :: l₁, t', l₂, by rw [hsplit]; rfl, ?_, hid, hav, hu, ?_⟩
      · intro x hx
        rcases List.mem_cons.mp hx with hx | hx
        · exact hx ▸ hc
        · exact hpre x hx
      · simp only [reserveTruck, if_neg hc]
        rw [hpost]; rfl

/-- C2: the reservation succeeds iff some truck document with the requested
`truck_id` currently has status `available`; on success the returned record is
the post-transition document — status `booked`, `updated_at` stamped — and the
collection replaces exactly that one document; on failure the collection is
unmodified. -/
theorem C2_reserve_spec (store : List Truck) (tid : String) (now : Int) :
    ((∃ u, (reserveTruck store tid now).1 = some u) ↔
      ∃ t ∈ store, t.truck_id = tid ∧ t.status = "available")
    ∧ (∀ u, (reserveTruck store tid now).1 = some u →
        u.truck_id = tid ∧ u.status = "booked" ∧ u.updated_at = now
          ∧ ∃ l₁ t l₂, store = l₁ ++ t :: l₂ ∧ t.status = "available"
              ∧ (reserveTruck store tid now).2 = l₁ ++ u :: l₂)
    ∧ ((reserveTruck store tid now).1 = none →
        (reserveTruck store tid now).2 = store) := by
  refine ⟨?_, ?_, reserveTruck_fail_frame store tid now⟩
  · constructor
    · rintro ⟨u, hu⟩
      obtain ⟨l₁, t, l₂, hsplit, _, hid, hav, _, _⟩ :=
        reserveTruck_some_shape store tid now u hu
      exact ⟨t, by simp [hsplit], hid, hav⟩
    · rintro ⟨t, ht, hid, hav⟩
      rcases ho : (reserveTruck store tid now).1 with _ | u
      · exact absurd ⟨hid, hav⟩ ((reserveTruck_none_iff store tid now).mp ho t ht)
      · exact ⟨u, rfl⟩
  · intro u hu
    obtain ⟨l₁, t, l₂, hsplit, _, hid, hav, hu', hpost⟩ :=
      reserveTruck_some_shape store tid now u hu
    subst hu'
    exact ⟨hid, rfl, rfl, l₁, t, l₂, hsplit, hav, hpost⟩

/-- Sample documents used by the concrete witnesses below. -/
def t0 : Truck := ⟨"T1", "owner-1", "box", "available", 0, 0⟩

theorem C2_reserve_spec_witness :
    (∃ u, (reserveTruck [t0] "T1" 5).1 = some u) ↔
      ∃ t ∈ [t0], t.truck_id = "T1" ∧ t.status = "available" :=
  (C2_reserve_spec [t0] "T1" 5).1

/-! ## C1 — exactly-one reservation under concurrency

Each concurrent `create_booking` call touches the `trucks` collection in one
atomic `find_one_and_update`, so any concurrent schedule of `N` calls on the
shared collection is some sequence of `N` atomic `reserveTruck` steps.
`runReserves` executes such a schedule; a CAS step "observes `available`"
exactly when it succeeds, so "exactly one success" is also "no two transitions
both observe `available`". -/

/-- A schedule of `n` concurrent booking calls on the same `tid`: each call's
single atomic store operation, in the order the store serializes them.
Returns each call's outcome (`true` = reservation succeeded) and the final
collection. -/
def runReserves (tid : String) (now : Int) : Nat → List Truck → List Bool × List Truck
  | 0, store => ([], store)
  | n + 1, store =>
    ((reserveTruck store tid now).1.isSome ::
        (runReserves tid now n (reserveTruck store tid now).2).1,
      (runReserves tid now n (reserveTruck store tid now).2).2)

theorem runReserves_all_fail (tid : String) (now : Int) (n : Nat) (store : List Truck)
    (h : ∀ t ∈ store, ¬(t.truck_id = tid ∧ t.status = "available")) :
    runReserves tid now n store = (List.replicate n false, store) := by
  induction n with
  | zero => simp [runReserves]
  | succ m ih =>
    have h1 : (reserveTruck store tid now).1 = none :=
      (reserveTruck_none_iff store tid now).mpr h
    have h2 : (reserveTruck store tid now).2 = store :=
      reserveTruck_fail_frame store tid now h1
    simp [runReserves, h1, h2, ih, List.replicate_succ]

/-- C1: for `N ≥ 2` concurrent reservation calls on a truck that is initially
`available`, exactly one succeeds, the other `N − 1` fail, and the truck ends
`booked`, never left `available`. -/
theorem C1_exactly_one_reservation (t : Truck) (tid : String) (now : Int) (n : Nat)
    (hid : t.truck_id = tid) (hav : t.status = "available") (hn : 2 ≤ n) :
    (runReserves tid now n [t]).1.count true = 1
      ∧ (runReserves tid now n [t]).1.count false = n - 1
      ∧ (runReserves tid now n [t]).2 =
          [{ t with status := "booked", updated_at := now }]
      ∧ ∀ u ∈ (runReserves tid now n [t]).2, u.status = "booked" := by
  obtain ⟨m, rfl⟩ : ∃ m, n = m + 1 := ⟨n - 1, (Nat.succ_pred_eq_of_pos (by omega)).symm⟩
  have hstep : reserveTruck [t] tid now =
      (some { t with status := "booked", updated_at := now },
        [{ t with status := "booked", updated_at := now }]) := by
    simp [reserveTruck, hid, hav]
  have hrest : runReserves tid now m [{ t with status := "booked", updated_at := now }] =
      (List.replicate m false, [{ t with status := "booked", updated_at := now }]) := by
    refine runReserves_all_fail tid now m _ ?_
    rintro u hu ⟨-, hav'⟩
    rw [List.mem_singleton.mp hu] at hav'
    simp at hav'
  refine ⟨?_, ?_, ?_, ?_⟩
  · simp [runReserves, hstep, hrest, List.count_replicate]
  · simp [runReserves, hstep, hrest, List.count_replicate]
  · simp [runReserves, hstep, hrest]
  · intro u hu
    simp only [runReserves, hstep, hrest] at hu
    rw [List.mem_singleton.mp hu]

theorem C1_exactly_one_reservation_witness :
    (runReserves "T1" 5 3 [t0]).1.count true = 1
      ∧ (runReserves "T1" 5 3 [t0]).1.count false = 3 - 1
      ∧ (runReserves "T1" 5 3 [t0]).2 =
          [{ t0 with status := "booked", updated_at := 5 }] := by
  have h := C1_exactly_one_reservation t0 "T1" 5 3 rfl rfl (by decide)
  exact ⟨h.1, h.2.1, h.2.2.1⟩

/-! ## Trips — `src/backend/app/schemas/trip.py`, `src/backend/app/routers/trips.py`
and `src/backend/app/routers/tracking.py`

Coordinates and speed carry no arithmetic anywhere in the embedded endpoints;
they are modelled as integers, standing in for the Python floats that are only
ever stored and echoed back. -/

/-- The `last_location` sub-document written by `update_location`. -/
structure LastLocation where
  lat : Int
  lng : Int
  speed : Option Int
  ts : Int
deriving DecidableEq, Repr

/-- A document of the `trips` collection: the `TripCreate` fields plus the
denormalized fields the ingestion endpoint and `patch_trip` write. -/
structure Trip where
  trip_id : String
  customer_id : String
  driver_id : String
  truck_id : Option String
  planned_eta_ms : Option Int
  status : String
  last_location : Option LastLocation
  last_update_ms : Option Int
  delay_minutes : Option Int
  delay_color : Option DelayColor
  updated_at_ms : Option Int
deriving DecidableEq, Repr

/-- The `LocationUpdate` request body (`app/schemas/trip.py`). -/
structure LocationUpdate where
  lat : Int
  lng : Int
  ts : Option Int
  speed : Option Int
deriving DecidableEq, Repr

/-- A document of the append-only `locations` collection. -/
structure LocationSample where
  trip_id : String
  lat : Int
  lng : Int
  ts : Int
  speed : Option Int
  driver : String
deriving DecidableEq, Repr

/-- `ts = loc.ts or now_ms` (`tracking.py` line 34): Python `or` falls through
to `now_ms` when `loc.ts` is `None` *or* the falsy value `0`. -/
def effectiveTs (locTs : Option Int) (now_ms : Int) : Int :=
  match locTs with
  | none => now_ms
  | some v => if v = 0 then now_ms else v

/-- Mongo `update_one({"trip_id": tid}, {"$set": ...})`: rewrite the first
document matching the filter, leave the rest untouched. -/
def setFirst (trips : List Trip) (tid : String) (f : Trip → Trip) : List Trip :=
  match trips with
  | [] => []
  | t :: rest => if t.trip_id = tid then f t :: rest else t :: setFirst rest tid f

/-- The `$set` document built by `update_location` (`tracking.py` lines
47–58) applied to the trip: writes `last_location`, `last_update_ms`,
`delay_minutes`, `delay_color`, and sets `status` to `in_transit` only when
the trip's current status is exactly `scheduled`. -/
def applyIngest (trip : Trip) (loc : LocationUpdate) (ts now_ms : Int) : Trip :=
  { trip with
    last_location := some ⟨loc.lat, loc.lng, loc.speed, ts⟩
    last_update_ms := some now_ms
    delay_minutes := (compute_delay trip.planned_eta_ms now_ms).1
    delay_color := (compute_delay trip.planned_eta_ms now_ms).2
    status := if trip.status = "scheduled" then "in_transit" else trip.status }

/-- Embedding of `POST /trips/{trip_id}/location` (`tracking.py`,
`update_location`, lines 26–75): 404 when the trip does not exist; otherwise
append one history row to `locations` and `$set` the summary fields on the
trip.  The broadcast that follows persistence is the hub's concern and is
modelled separately (`WSManager.broadcast`). -/
def update_location (trips : List Trip) (locs : List LocationSample)
    (trip_id : String) (loc : LocationUpdate) (now_ms : Int) (driver : String) :
    Except Unit (List Trip × List LocationSample) :=
  match trips.find? (fun t => t.trip_id == trip_id) with
  | none => .error ()
  | some _ =>
    let ts := effectiveTs loc.ts now_ms
    .ok (setFirst trips trip_id (fun t => applyIngest t loc ts now_ms),
      locs ++ [⟨trip_id, loc.lat, loc.lng, ts, loc.speed, driver⟩])

theorem find?_setFirst (trips : List Trip) (tid : String) (f : Trip → Trip)
    (hf : ∀ t, (f t).trip_id = t.trip_id) (trip : Trip)
    (hfind : trips.find? (fun t => t.trip_id == tid) = some trip) :
    (setFirst trips tid f).find? (fun t => t.trip_id == tid) = some (f trip) := by
  induction trips with
  | nil => simp at hfind
  | cons t rest ih =>
    by_cases ht : t.trip_id = tid
    · rw [List.find?_cons_of_pos _ (by simp [ht])] at hfind
      have : t = trip := by simpa using hfind
      subst this
      simp only [setFirst, if_pos ht]
      exact List.find?_cons_of_pos _ (by simp [hf, ht])
    · rw [List.find?_cons_of_neg _ (by simp [ht])] at hfind
      simp only [setFirst, if_neg ht]
      rw [List.find?_cons_of_neg _ (by simp [ht])]
      exact ih hfind

/-- C5: ingesting a sample on an existing trip succeeds and rewrites exactly
that trip; the stored status is `in_transit` when the trip was exactly
`scheduled` and the unchanged old status in every other case — in particular a
trip already past `scheduled` (`in_transit`, `delayed`, `delivered`,
`cancelled`) keeps its status and is never reset to `scheduled`. -/
theorem C5_auto_advance (trips : List Trip) (locs : List LocationSample)
    (trip_id : String) (loc : LocationUpdate) (now_ms : Int) (driver : String)
    (trip : Trip) (hfind : trips.find? (fun t => t.trip_id == trip_id) = some trip) :
    update_location trips locs trip_id loc now_ms driver =
        .ok (setFirst trips trip_id
              (fun t => applyIngest t loc (effectiveTs loc.ts now_ms) now_ms),
            locs ++ [⟨trip_id, loc.lat, loc.lng, effectiveTs loc.ts now_ms,
              loc.speed, driver⟩])
      ∧ (setFirst trips trip_id
            (fun t => applyIngest t loc (effectiveTs loc.ts now_ms) now_ms)).find?
            (fun t => t.trip_id == trip_id) =
          some (applyIngest trip loc (effectiveTs loc.ts now_ms) now_ms)
      ∧ (trip.status = "scheduled" →
          (applyIngest trip loc (effectiveTs loc.ts now_ms) now_ms).status = "in_transit")
      ∧ (trip.status ≠ "scheduled" →
          (applyIngest trip loc (effectiveTs loc.ts now_ms) now_ms).status = trip.status) := by
  refine ⟨?_, ?_, ?_, ?_⟩
  · simp only [update_location, hfind]
  · exact find?_setFirst trips trip_id
      (fun t => applyIngest t loc (effectiveTs loc.ts now_ms) now_ms)
      (fun t => rfl) trip hfind
  · intro h; simp [applyIngest, h]
  · intro h; simp [applyIngest, h]

/-- Sample documents for the ingestion witnesses. -/
def tr0 : Trip :=
  ⟨"tr1", "customer-1", "driver-1", some "T1", some 60000, "in_transit",
    none, none, none, none, none⟩

def loc0 : LocationUpdate := ⟨10, 20, some 500, none⟩

theorem C5_auto_advance_witness :
    update_location [tr0] [] "tr1" loc0 700 "driver-1" =
        .ok (setFirst [tr0] "tr1"
              (fun t => applyIngest t loc0 (effectiveTs loc0.ts 700) 700),
            [] ++ [⟨"tr1", loc0.lat, loc0.lng, effectiveTs loc0.ts 700,
              loc0.speed, "driver-1"⟩])
      ∧ (setFirst [tr0] "tr1"
            (fun t => applyIngest t loc0 (effectiveTs loc0.ts 700) 700)).find?
            (fun t => t.trip_id == "tr1") =
          some (applyIngest tr0 loc0 (effectiveTs loc0.ts 700) 700)
      ∧ (applyIngest tr0 loc0 (effectiveTs loc0.ts 700) 700).status = tr0.status := by
  have h := C5_auto_advance [tr0] [] "tr1" loc0 700 "driver-1" tr0 (by decide)
  exact ⟨h.1, h.2.1, h.2.2.2 (by decide)⟩

/-! ## OTP share redemption — `src/backend/app/routers/trips.py`, `resolve_otp`

```python
share = await db().trip_shares.find_one({"otp": otp}, {"_id": 0})
if not share:
    raise HTTPException(status_code=404, detail="Invalid OTP")
if share["expires_ms"] < now_ms:
    raise HTTPException(status_code=410, detail="OTP expired")
return {"trip_id": share["trip_id"], "expires_ms": share["expires_ms"]}
``` -/

/-- A document of the `trip_shares` collection. -/
structure TripShare where
  trip_id : String
  otp : String
  expires_ms : Int
  created_at_ms : Int
deriving DecidableEq, Repr

inductive RedeemOutcome where
  | ok (trip_id : String) (expires_ms : Int)
  | notFound
  | expired
deriving DecidableEq, Repr

/-- Embedding of `GET /public/resolve-otp` (`trips.py` lines 68–78). -/
def resolve_otp (shares : List TripShare) (otp : String) (now_ms : Int) :
    RedeemOutcome :=
  match shares.find? (fun s => s.otp == otp) with
  | none => .notFound
  | some s => if s.expires_ms < now_ms then .expired else .ok s.trip_id s.expires_ms

/-- C7: redemption is `NotFound` when no share record carries the code;
with a matching record it is `Expired` exactly when the current instant is
strictly after `expires_at` (so a request at exactly `expires_at` still
succeeds), and otherwise returns the stored `trip_id`. -/
theorem C7_redeem_expiry (shares : List TripShare) (otp : String) (now_ms : Int) :
    (shares.find? (fun s => s.otp == otp) = none →
      resolve_otp shares otp now_ms = .notFound)
    ∧ ∀ s, shares.find? (fun s => s.otp == otp) = some s →
        (now_ms > s.expires_ms → resolve_otp shares otp now_ms = .expired)
        ∧ (now_ms ≤ s.expires_ms →
            resolve_otp shares otp now_ms = .ok s.trip_id s.expires_ms) := by
  refine ⟨fun h => by simp [resolve_otp, h], fun s hs => ⟨fun hlt => ?_, fun hle => ?_⟩⟩
  · simp [resolve_otp, hs, hlt]
  · simp [resolve_otp, hs, not_lt.mpr hle]

def share0 : TripShare := ⟨"tr1", "123456", 1000, 0⟩

theorem C7_redeem_expiry_witness :
    resolve_otp [share0] "123456" 1000 = .ok "tr1" 1000
      ∧ resolve_otp [share0] "123456" 1001 = .expired
      ∧ resolve_otp [share0] "000000" 500 = .notFound := by
  refine ⟨?_, ?_, ?_⟩
  · exact ((C7_redeem_expiry [share0] "123456" 1000).2 share0 (by decide)).2 (by decide)
  · exact ((C7_redeem_expiry [share0] "123456" 1001).2 share0 (by decide)).1 (by decide)
  · exact (C7_redeem_expiry [share0] "000000" 500).1 (by decide)

/-! ## Trip patch — `src/backend/app/routers/trips.py`, `patch_trip`

```python
update = {k: v for k, v in patch.model_dump().items() if v is not None}
if not update:
    return {"ok": True}
update["updated_at_ms"] = int(time.time() * 1000)
res = await db().trips.update_one({"trip_id": trip_id}, {"$set": update})
if res.matched_count == 0:
    raise HTTPException(status_code=404, detail="Trip not found")
return {"ok": True}
```

Note the early `return {"ok": True}` when every supplied field is `None`:
it fires *before* the store is touched, so existence of the trip is never
checked on that path. -/

/-- The `TripPatch` request body (`app/schemas/trip.py`). -/
structure TripPatch where
  status : Option String
  planned_eta_ms : Option Int
deriving DecidableEq, Repr

inductive PatchResult where
  | ok (trips : List Trip)
  | notFound
deriving DecidableEq, Repr

/-- The `$set` of the non-null patch fields plus the `updated_at_ms` stamp. -/
def applyTripPatch (t : Trip) (patch : TripPatch) (now_ms : Int) : Trip :=
  { t with
    status :=
      match patch.status with
      | some s => s
      | none => t.status
    planned_eta_ms :=
      match patch.planned_eta_ms with
      | some v => some v
      | none => t.planned_eta_ms
    updated_at_ms := some now_ms }

/-- Embedding of `PATCH /trips/{trip_id}` (`trips.py` lines 31–43). -/
def patch_trip (trips : List Trip) (trip_id : String) (patch : TripPatch)
    (now_ms : Int) : PatchResult :=
  if patch.status = none ∧ patch.planned_eta_ms = none then
    .ok trips
  else if (trips.find? (fun t => t.trip_id == trip_id)).isSome then
    .ok (setFirst trips trip_id (fun t => applyTripPatch t patch now_ms))
  else
    .notFound

/-- C8, as stated, is false on the all-null path: patching a *nonexistent*
trip with a patch whose every field is null returns Ok — the code returns
`{"ok": True}` before ever consulting the store — where the claim demands
NotFound. -/
theorem C8_empty_patch_counterexample :
    patch_trip [] "tr1" ⟨none, none⟩ 0 = .ok []
      ∧ patch_trip [] "tr1" ⟨none, none⟩ 0 ≠ .notFound := by
  exact ⟨rfl, by decide⟩

/-- C8 (amended): when every supplied field is null, `patchTrip` returns Ok
without touching the store (even for a nonexistent `trip_id`, and without
stamping `updated_at`); when some field is non-null it fails with NotFound
exactly when no trip with `trip_id` exists, and otherwise rewrites exactly the
first matching trip, applying precisely the non-null fields, stamping
`updated_at`, and leaving every other field of the trip untouched. -/
theorem C8_patch_partial_update (trips : List Trip) (trip_id : String)
    (patch : TripPatch) (now_ms : Int) :
    (patch.status = none ∧ patch.planned_eta_ms = none →
      patch_trip trips trip_id patch now_ms = .ok trips)
    ∧ (¬(patch.status = none ∧ patch.planned_eta_ms = none) →
        (patch_trip trips trip_id patch now_ms = .notFound ↔
          trips.find? (fun t => t.trip_id == trip_id) = none))
    ∧ (∀ trip, trips.find? (fun t => t.trip_id == trip_id) = some trip →
        ¬(patch.status = none ∧ patch.planned_eta_ms = none) →
        patch_trip trips trip_id patch now_ms =
            .ok (setFirst trips trip_id (fun t => applyTripPatch t patch now_ms))
          ∧ (setFirst trips trip_id
                (fun t => applyTripPatch t patch now_ms)).find?
                (fun t => t.trip_id == trip_id) =
              some (applyTripPatch trip patch now_ms)
          ∧ (applyTripPatch trip patch now_ms).status =
              (match patch.status with | some s => s | none => trip.status)
          ∧ (applyTripPatch trip patch now_ms).planned_eta_ms =
              (match patch.planned_eta_ms with
               | some v => some v
               | none => trip.planned_eta_ms)
          ∧ (applyTripPatch trip patch now_ms).updated_at_ms = some now_ms
          ∧ (applyTripPatch trip patch now_ms).trip_id = trip.trip_id
          ∧ (applyTripPatch trip patch now_ms).customer_id = trip.customer_id
          ∧ (applyTripPatch trip patch now_ms).driver_id = trip.driver_id
          ∧ (applyTripPatch trip patch now_ms).truck_id = trip.truck_id
          ∧ (applyTripPatch trip patch now_ms).last_location = trip.last_location
          ∧ (applyTripPatch trip patch now_ms).last_update_ms = trip.last_update_ms
          ∧ (applyTripPatch trip patch now_ms).delay_minutes = trip.delay_minutes
          ∧ (applyTripPatch trip patch now_ms).delay_color = trip.delay_color) := by
  refine ⟨fun h => by simp [patch_trip, h], fun h => ?_, fun trip hfind h => ?_⟩
  · rcases hf : trips.find? (fun t => t.trip_id == trip_id) with _ | s
    · simp [patch_trip, h, hf]
    · simp [patch_trip, h, hf]
  · refine ⟨by simp [patch_trip, h, hfind], ?_, rfl, rfl, rfl, rfl, rfl, rfl,
      rfl, rfl, rfl, rfl, rfl⟩
    exact find?_setFirst trips trip_id
      (fun t => applyTripPatch t patch now_ms) (fun t => rfl) trip hfind

theorem C8_patch_partial_update_witness :
    patch_trip [tr0] "tr1" ⟨some "delivered", none⟩ 900 =
        .ok (setFirst [tr0] "tr1"
          (fun t => applyTripPatch t ⟨some "delivered", none⟩ 900))
      ∧ (applyTripPatch tr0 ⟨some "delivered", none⟩ 900).status = "delivered"
      ∧ (applyTripPatch tr0 ⟨some "delivered", none⟩ 900).planned_eta_ms =
          tr0.planned_eta_ms
      ∧ (applyTripPatch tr0 ⟨some "delivered", none⟩ 900).updated_at_ms = some 900 := by
  have h := (C8_patch_partial_update [tr0] "tr1" ⟨some "delivered", none⟩ 900).2.2
    tr0 (by decide) (by decide)
  exact ⟨h.1, h.2.2.1, h.2.2.2.1, h.2.2.2.2.1⟩

/-! ## Realtime broadcast hub — `src/backend/app/realtime/manager.py`, `WSManager`

```python
async def broadcast(self, trip_id: str, message: dict):
    for ws in list(self.rooms.get(trip_id, set())):
        try:
            await ws.send_json(message)
        except Exception:
            self.disconnect(trip_id, ws)
```

`rooms` is a Python dict (keys unique) mapping a trip id to a set of
websockets; a websocket is modelled by an abstract channel identifier and the
only observable of `ws.send_json` — whether it raises — by a failure oracle
`fails`.  The loop iterates over a snapshot (`list(...)`) taken before any
removal, catches every send exception, and removes the failing channel via
`disconnect`, which also pops the room when it becomes empty.  `broadcast`
returns the list of channels whose send succeeded (the deliveries) together
with the post-call manager; it is a total function — no exception escapes to
the broadcaster's caller. -/

/-- An observer channel (a websocket), identified abstractly. -/
abbrev Channel := Nat

/-- `rooms.get(trip_id, set())` on the underlying association list. -/
def findRoom (rooms : List (String × List Channel)) (tid : String) : List Channel :=
  match rooms.find? (fun r => r.1 == tid) with
  | none => []
  | some r => r.2

/-- `disconnect`: discard the channel from the room for `tid`, and pop the
room entry when its member set becomes empty. -/
def removeFromRooms (rooms : List (String × List Channel)) (tid : String)
    (ws : Channel) : List (String × List Channel) :=
  match rooms with
  | [] => []
  | r :: rest =>
    if r.1 = tid then
      if r.2.filter (fun c => !(c == ws)) = [] then rest
      else (r.1, r.2.filter (fun c => !(c == ws))) :: rest
    else r :: removeFromRooms rest tid ws

/-- The `WSManager` with its `rooms` dict; as in a Python dict, its keys are
unique (the `Nodup` hypotheses below). -/
structure WSManager where
  rooms : List (String × List Channel)
deriving DecidableEq, Repr

def WSManager.getRoom (m : WSManager) (tid : String) : List Channel :=
  findRoom m.rooms tid

def WSManager.disconnect (m : WSManager) (tid : String) (ws : Channel) : WSManager :=
  ⟨removeFromRooms m.rooms tid ws⟩

/-- The `for ws in list(...)` loop of `broadcast` over the snapshot. -/
def broadcastLoop (tid : String) (fails : Channel → Bool) :
    List Channel → WSManager → List Channel × WSManager
  | [], m => ([], m)
  | ws :: rest, m =>
    if fails ws then broadcastLoop tid fails rest (m.disconnect tid ws)
    else
      (ws :: (broadcastLoop tid fails rest m).1, (broadcastLoop tid fails rest m).2)

def WSManager.broadcast (m : WSManager) (fails : Channel → Bool) (tid : String) :
    List Channel × WSManager :=
  broadcastLoop tid fails (m.getRoom tid) m

theorem findRoom_cons_pos (r : String × List Channel)
    (rest : List (String × List Channel)) (tid : String) (h : r.1 = tid) :
    findRoom (r :: rest) tid = r.2 := by
  simp [findRoom, List.find?, h]

theorem findRoom_cons_neg (r : String × List Channel)
    (rest : List (String × List Channel)) (tid : String) (h : ¬r.1 = tid) :
    findRoom (r :: rest) tid = findRoom rest tid := by
  have hb : (r.1 == tid) = false := by simp [h]
  simp [findRoom, List.find?, hb]

theorem broadcastLoop_delivered (tid : String) (fails : Channel → Bool)
    (l : List Channel) (m : WSManager) :
    (broadcastLoop tid fails l m).1 = l.filter (fun ws => !fails ws) := by
  induction l generalizing m with
  | nil => simp [broadcastLoop]
  | cons ws rest ih =>
    by_cases h : fails ws
    · simp [broadcastLoop, h, List.filter_cons, ih]
    · simp [broadcastLoop, h, List.filter_cons, ih]

theorem findRoom_eq_nil (rooms : List (String × List Channel)) (tid : String)
    (h : ∀ r ∈ rooms, r.1 ≠ tid) : findRoom rooms tid = [] := by
  have hf : rooms.find? (fun r => r.1 == tid) = none := by
    rw [List.find?_eq_none]
    intro r hr
    simpa using h r hr
  simp [findRoom, hf]

theorem removeFromRooms_keys_sublist (rooms : List (String × List Channel))
    (tid : String) (ws : Channel) :
    List.Sublist ((removeFromRooms rooms tid ws).map Prod.fst)
      (rooms.map Prod.fst) := by
  induction rooms with
  | nil => simp [removeFromRooms]
  | cons r rest ih =>
    by_cases h : r.1 = tid
    · by_cases he : r.2.filter (fun c => !(c == ws)) = []
      · simp only [removeFromRooms, if_pos h, if_pos he, List.map_cons]
        exact (List.Sublist.refl _).cons _
      · simp only [removeFromRooms, if_pos h, if_neg he, List.map_cons]
        exact (List.Sublist.refl _).cons₂ _
    · simp only [removeFromRooms, if_neg h, List.map_cons]
      exact ih.cons₂ _

/-- After removing `ws` from the room for `tid`, `ws` is no longer a member
of that room (keys unique, as in a dict). -/
theorem removeFromRooms_not_mem (rooms : List (String × List Channel))
    (tid : String) (ws : Channel) (hkeys : (rooms.map Prod.fst).Nodup) :
    ws ∉ findRoom (removeFromRooms rooms tid ws) tid := by
  induction rooms with
  | nil => simp [removeFromRooms, findRoom]
  | cons r rest ih =>
    simp only [List.map_cons, List.nodup_cons] at hkeys
    by_cases h : r.1 = tid
    · by_cases he : r.2.filter (fun c => !(c == ws)) = []
      · simp only [removeFromRooms, if_pos h, if_pos he]
        have hrest : ∀ r' ∈ rest, r'.1 ≠ tid := by
          intro r' hr' hr'eq
          apply hkeys.1
          have hm : r'.1 ∈ rest.map Prod.fst := List.mem_map_of_mem Prod.fst hr'
          rwa [hr'eq, ← h] at hm
        rw [findRoom_eq_nil rest tid hrest]
        simp
      · simp only [removeFromRooms, if_pos h, if_neg he]
        rw [findRoom_cons_pos (r.1, r.2.filter (fun c => !(c == ws))) rest tid h]
        simp
    · simp only [removeFromRooms, if_neg h]
      rw [findRoom_cons_neg _ _ _ h]
      exact ih hkeys.2

/-- Removing a channel only ever shrinks the room for `tid`. -/
theorem removeFromRooms_subset (rooms : List (String × List Channel))
    (tid : String) (w ws : Channel) (hkeys : (rooms.map Prod.fst).Nodup)
    (h : ws ∈ findRoom (removeFromRooms rooms tid w) tid) :
    ws ∈ findRoom rooms tid := by
  induction rooms with
  | nil => simp [removeFromRooms, findRoom] at h
  | cons r rest ih =>
    simp only [List.map_cons, List.nodup_cons] at hkeys
    by_cases hr : r.1 = tid
    · rw [findRoom_cons_pos _ _ _ hr]
      by_cases he : r.2.filter (fun c => !(c == w)) = []
      · simp only [removeFromRooms, if_pos hr, if_pos he] at h
        have hrest : ∀ r' ∈ rest, r'.1 ≠ tid := by
          intro r' hr' hr'eq
          apply hkeys.1
          have hm : r'.1 ∈ rest.map Prod.fst := List.mem_map_of_mem Prod.fst hr'
          rwa [hr'eq, ← hr] at hm
        rw [findRoom_eq_nil rest tid hrest] at h
        simp at h
      · simp only [removeFromRooms, if_pos hr, if_neg he] at h
        rw [findRoom_cons_pos (r.1, r.2.filter (fun c => !(c == w))) rest tid hr] at h
        exact (List.mem_filter.mp h).1
    · rw [findRoom_cons_neg _ _ _ hr]
      simp only [removeFromRooms, if_neg hr] at h
      rw [findRoom_cons_neg _ _ _ hr] at h
      exact ih hkeys.2 h

theorem broadcastLoop_getRoom_subset (tid : String) (fails : Channel → Bool)
    (l : List Channel) (m : WSManager) (hkeys : (m.rooms.map Prod.fst).Nodup)
    (ws : Channel) (h : ws ∈ (broadcastLoop tid fails l m).2.getRoom tid) :
    ws ∈ m.getRoom tid := by
  induction l generalizing m with
  | nil => simpa [broadcastLoop] using h
  | cons w rest ih =>
    by_cases hfw : fails w
    · simp only [broadcastLoop, if_pos hfw] at h
      have hkeys' : ((m.disconnect tid w).rooms.map Prod.fst).Nodup :=
        (removeFromRooms_keys_sublist m.rooms tid w).nodup hkeys
      exact removeFromRooms_subset m.rooms tid w ws hkeys (ih _ hkeys' h)
    · simp only [broadcastLoop, if_neg hfw] at h
      exact ih m hkeys h

theorem broadcastLoop_removes (tid : String) (fails : Channel → Bool)
    (l : List Channel) (m : WSManager) (hkeys : (m.rooms.map Prod.fst).Nodup)
    (ws : Channel) (hws : ws ∈ l) (hf : fails ws = true) :
    ws ∉ (broadcastLoop tid fails l m).2.getRoom tid := by
  induction l generalizing m with
  | nil => simp at hws
  | cons w rest ih =>
    by_cases hfw : fails w
    · simp only [broadcastLoop, if_pos hfw]
      have hkeys' : ((m.disconnect tid w).rooms.map Prod.fst).Nodup :=
        (removeFromRooms_keys_sublist m.rooms tid w).nodup hkeys
      rcases List.mem_cons.mp hws with rfl | hws'
      · intro hmem
        exact removeFromRooms_not_mem m.rooms tid ws hkeys
          (broadcastLoop_getRoom_subset tid fails rest _ hkeys' ws hmem)
      · exact ih _ hkeys' hws'
    · simp only [broadcastLoop, if_neg hfw]
      rcases List.mem_cons.mp hws with rfl | hws'
      · exact absurd hf (by simpa using hfw)
      · exact ih m hkeys hws' 

/-- C6: a broadcast delivers the message to every registered channel whose
send does not fail — one channel's failure never blocks the others — and each
failing channel is removed from the registry's room before the broadcast
returns; `broadcast` is a total function, so no send error reaches the
broadcaster's caller. -/
theorem C6_broadcast_isolation (m : WSManager) (fails : Channel → Bool)
    (tid : String) (hkeys : (m.rooms.map Prod.fst).Nodup) :
    (m.broadcast fails tid).1 = (m.getRoom tid).filter (fun ws => !fails ws)
    ∧ (∀ ws ∈ m.getRoom tid, fails ws = false → ws ∈ (m.broadcast fails tid).1)
    ∧ (∀ ws ∈ m.getRoom tid, fails ws = true →
        ws ∉ (m.broadcast fails tid).2.getRoom tid) := by
  refine ⟨broadcastLoop_delivered tid fails (m.getRoom tid) m, ?_, ?_⟩
  · intro ws hws hok
    show ws ∈ (broadcastLoop tid fails (m.getRoom tid) m).1
    rw [broadcastLoop_delivered]
    exact List.mem_filter.mpr ⟨hws, by simp [hok]⟩
  · intro ws hws hf
    exact broadcastLoop_removes tid fails (m.getRoom tid) m hkeys ws hws hf

/-- A registry with one room for `"trip1"` holding channels 1, 2, 3. -/
def m0 : WSManager := ⟨[("trip1", [1, 2, 3])]⟩

theorem C6_broadcast_isolation_witness :
    (m0.broadcast (fun ws => ws == 2) "trip1").1 = [1, 3]
      ∧ 2 ∉ (m0.broadcast (fun ws => ws == 2) "trip1").2.getRoom "trip1" := by
  have h := C6_broadcast_isolation m0 (fun ws => ws == 2) "trip1" (by decide)
  refine ⟨h.1.trans (by decide), h.2.2 2 (by decide) (by decide)⟩

/-! ## Role gating — `src/backend/app/auth/deps.py` and the endpoints' `Depends`

```python
def get_current_user(creds=Depends(bearer)):
    ...
    sub = payload.get("sub"); role = payload.get("role")
    if not sub or not role:
        raise HTTPException(status_code=401, ...)
    return {"sub": sub, "role": role}

def require_roles(*allowed):
    def _guard(user=Depends(get_current_user)):
        if user["role"] not in allowed:
            raise HTTPException(status_code=403, detail="Forbidden")
        return user
    return _guard
```

The modular routers declare `Depends(require_roles("owner"))` on trip
create/patch/list and share issuance (`app/routers/trips.py`) and on truck
listing (`app/routers/trucks.py`), and `Depends(require_roles("driver"))` on
location ingestion (`app/routers/tracking.py`); `resolve_otp` and
`public_trip` declare no dependency.  The truck-management endpoints of
`main.py` (`create_truck`, `list_trucks`, `update_truck`) declare **no**
auth dependency at all. -/

/-- The decoded token payload `{sub, role}`; `none` models a request with a
missing or invalid bearer token. -/
structure UserCtx where
  sub : String
  role : String
deriving DecidableEq, Repr

inductive AuthOutcome where
  | ok (user : UserCtx)
  | unauthorized
  | forbidden
deriving DecidableEq, Repr

/-- `get_current_user` (`deps.py` lines 11–22): 401 without a valid token or
when `sub` / `role` are falsy (absent modelled by the empty string). -/
def get_current_user (cred : Option UserCtx) : AuthOutcome :=
  match cred with
  | none => .unauthorized
  | some u => if u.sub = "" ∨ u.role = "" then .unauthorized else .ok u

/-- `require_roles(*allowed)` (`deps.py` lines 24–28). -/
def require_roles (allowed : List String) (cred : Option UserCtx) : AuthOutcome :=
  match get_current_user cred with
  | .ok u => if u.role ∈ allowed then .ok u else .forbidden
  | r => r

/-- `Depends(require_roles("owner"))` on `POST /trips` (`trips.py`). -/
def create_trip_gate (cred : Option UserCtx) : AuthOutcome :=
  require_roles ["owner"] cred

/-- `Depends(require_roles("owner"))` on `PATCH /trips/{trip_id}` (`trips.py`). -/
def patch_trip_gate (cred : Option UserCtx) : AuthOutcome :=
  require_roles ["owner"] cred

/-- `Depends(require_roles("owner"))` on `POST /trips/{trip_id}/share-otp`. -/
def share_otp_gate (cred : Option UserCtx) : AuthOutcome :=
  require_roles ["owner"] cred

/-- `Depends(require_roles("owner"))` on `GET /trucks` (`trucks.py`). -/
def list_trucks_gate (cred : Option UserCtx) : AuthOutcome :=
  require_roles ["owner"] cred

/-- `Depends(require_roles("driver"))` on `POST /trips/{trip_id}/location`. -/
def update_location_gate (cred : Option UserCtx) : AuthOutcome :=
  require_roles ["driver"] cred

/-- The `TruckCreate` body of `main.py`. -/
structure TruckCreate where
  truck_id : String
  ttype : String
  status : String
deriving DecidableEq, Repr

inductive CreateTruckResult where
  | ok (store : List Truck) (doc : Truck)
  | conflict
deriving DecidableEq, Repr

/-- `main.py` hardcodes the owner account. -/
def OwnerID : String := "owner-1"

/-- Embedding of `POST /api/owners/me/trucks` (`main.py` lines 162–183).
The endpoint declares no auth dependency: its behaviour is a function of the
request body and the store alone — no caller identity is consulted — and its
only failure is the 409 duplicate-`(owner_id, truck_id)` conflict raised by
`insert_one` against the unique index. -/
def main_create_truck (store : List Truck) (body : TruckCreate) (now : Int) :
    CreateTruckResult :=
  let tid := body.truck_id.trim
  if store.any (fun t => t.owner_id == OwnerID && t.truck_id == tid) then
    .conflict
  else
    .ok (store ++ [⟨tid, OwnerID, body.ttype, body.status, now, now⟩])
      ⟨tid, OwnerID, body.ttype, body.status, now, now⟩

/-- C9, as stated, is false for truck management: truck creation lives in
`main.py` with no authorization dependency, so a request with no identity at
all (and hence any caller whose role is not `owner`) is not rejected — it
succeeds and inserts the truck.  `main_create_truck` takes no credential
input, and at a concrete body it returns Ok, not an authorization error. -/
theorem C9_ungated_truck_creation_counterexample :
    main_create_truck [] ⟨"T9", "box", "available"⟩ 0 =
      .ok [⟨"T9".trim, "owner-1", "box", "available", 0, 0⟩]
        ⟨"T9".trim, "owner-1", "box", "available", 0, 0⟩ := by
  simp [main_create_truck, OwnerID]

/-- C9 (amended): the modular app's role-gated operations enforce their
required roles — trip creation/patch, share issuance and truck listing answer
403 to every authenticated caller whose role is not `owner` and 401 to a
caller with no identity, and location ingestion likewise requires `driver`;
share redemption and public trip read consult no identity (`resolve_otp`
takes none).  The truck-management endpoints of `main.py`, however, perform
no authorization check: truck creation either succeeds, appending the
document, or fails only with a duplicate-key conflict — never with an
authorization error. -/
theorem C9_role_gates (u : UserCtx) (hsub : u.sub ≠ "") (hrole : u.role ≠ "") :
    (create_trip_gate none = .unauthorized
      ∧ update_location_gate none = .unauthorized)
    ∧ (u.role ≠ "owner" →
        create_trip_gate (some u) = .forbidden
          ∧ patch_trip_gate (some u) = .forbidden
          ∧ share_otp_gate (some u) = .forbidden
          ∧ list_trucks_gate (some u) = .forbidden)
    ∧ (u.role = "owner" →
        create_trip_gate (some u) = .ok u ∧ patch_trip_gate (some u) = .ok u)
    ∧ (u.role ≠ "driver" → update_location_gate (some u) = .forbidden)
    ∧ (u.role = "driver" → update_location_gate (some u) = .ok u)
    ∧ (∀ store body now, main_create_truck store body now = .conflict
        ∨ main_create_truck store body now =
            .ok (store ++
                [⟨body.truck_id.trim, OwnerID, body.ttype, body.status, now, now⟩])
              ⟨body.truck_id.trim, OwnerID, body.ttype, body.status, now, now⟩) := by
  refine ⟨⟨rfl, rfl⟩, ?_, ?_, ?_, ?_, ?_⟩
  · intro h
    refine ⟨?_, ?_, ?_, ?_⟩ <;>
      simp [create_trip_gate, patch_trip_gate, share_otp_gate, list_trucks_gate,
        require_roles, get_current_user, hsub, hrole, h]
  · intro h
    constructor <;>
      simp [create_trip_gate, patch_trip_gate, require_roles, get_current_user,
        hsub, hrole, h]
  · intro h
    simp [update_location_gate, require_roles, get_current_user, hsub, hrole, h]
  · intro h
    simp [update_location_gate, require_roles, get_current_user, hsub, hrole, h]
  · intro store body now
    by_cases hc : store.any
        (fun t => t.owner_id == OwnerID && t.truck_id == body.truck_id.trim)
    · left
      simp [main_create_truck, hc]
    · right
      simp [main_create_truck, hc]

theorem C9_role_gates_witness :
    create_trip_gate (some ⟨"customer-1", "customer"⟩) = .forbidden
      ∧ update_location_gate (some ⟨"customer-1", "customer"⟩) = .forbidden
      ∧ create_trip_gate none = .unauthorized := by
  have h := C9_role_gates ⟨"customer-1", "customer"⟩ (by decide) (by decide)
  exact ⟨(h.2.1 (by decide)).1, h.2.2.2.1 (by decide), h.1.1⟩

end Windsor
